import Mathlib

/-!
Shallow embedding of the resilient cart mutation layer of the storefront:
the pure error/outcome classifier and session-context validator from
`app/lib/cart-service.ts`, the orchestrator `executeSafeMutation` and the
recovery controller `performRecovery` from the `useSafeCart` hook, and the
shared-authority wrappers (`addToCart`, `updateQuantity`, `removeFromCart`,
`addMultipleToCart`) from `SafeCartContext`.

TypeScript numbers are modelled as `Int`, optional values as `Option`,
thrown exceptions as `Except String`, and the browser storage plus
`JSON.parse`/`JSON.stringify` as an explicit environment.  The remote
gateway is modelled by environments that supply the cart view observed
after each gateway call completes (the code polls until the cart status is
idle and then reads the hook cart; the environment supplies exactly that
observed view).
-/

namespace CartService

/-- The closed set of cart mutation error kinds (`CartMutationErrorCode`). -/
inductive CartMutationErrorCode
  | USER_ERROR
  | STALE_CART
  | NO_OP_MUTATION
  | CONTEXT_MISMATCH
  | RECOVERY_FAILED
  | UNKNOWN_ERROR
deriving DecidableEq, Repr

/-- A raw `userError` reported inline by the remote service (`CartUserError`). -/
structure CartUserError where
  message : String
  field : Option (List String)
deriving DecidableEq, Repr

/-- Structured error from cart mutations (`CartMutationError`). -/
structure CartMutationError where
  code : CartMutationErrorCode
  message : String
  field : Option String
  originalError : Option CartUserError
deriving DecidableEq, Repr

/-- The `{countryCode, languageCode, createdAt}` record stored at cart creation. -/
structure CartContext where
  countryCode : String
  languageCode : String
  createdAt : String
deriving DecidableEq, Repr

/-- The current `{countryCode, languageCode}` pair used in mismatch messages. -/
structure CurrentContext where
  countryCode : String
  languageCode : String
deriving DecidableEq, Repr

/-- Mutation types supported by the cart service (`CartMutationType`). -/
inductive CartMutationType
  | add
  | update
  | remove
deriving DecidableEq, Repr

/-- A cart line as observed by the client: remote-assigned line id, merchandise
reference (`merchandise.id`, possibly absent), and quantity (possibly absent,
read with a `?? 0` default). -/
structure CartLine where
  id : String
  merchandiseId : Option String
  quantity : Option Int
deriving DecidableEq, Repr

/-- The cached client copy of the remote cart (the fields of
`HydrogenCart` that the mutation layer reads). -/
structure HydrogenCart where
  id : Option String
  updatedAt : Option String
  totalQuantity : Option Int
  lines : Option (List CartLine)
deriving DecidableEq, Repr

/-- The `{updatedAt, totalQuantity}` snapshot compared by the no-op
detector (the Pick of updatedAt and totalQuantity). -/
structure CartSnapshot where
  updatedAt : Option String
  totalQuantity : Option Int
deriving DecidableEq, Repr

/-- Project a cart to the snapshot fields the classifier compares. -/
def HydrogenCart.snapshot (c : HydrogenCart) : CartSnapshot :=
  { updatedAt := c.updatedAt, totalQuantity := c.totalQuantity }

/-- Result of a safe cart mutation (`SafeCartMutationResult`). -/
structure SafeCartMutationResult where
  success : Bool
  cart : Option HydrogenCart
  errors : List CartMutationError
  wasRecovered : Bool
  newCartId : Option String
deriving DecidableEq, Repr

/-- Input for line add mutations (`CartLineAddInput`). -/
structure CartLineAddInput where
  merchandiseId : String
  quantity : Int
deriving DecidableEq, Repr

/-- Input for line update mutations (`CartLineUpdateInput`). -/
structure CartLineUpdateInput where
  id : String
  quantity : Int
deriving DecidableEq, Repr

/-- `buildSuccessResult`: a successful mutation result. -/
def buildSuccessResult (cart : HydrogenCart) (wasRecovered : Bool)
    (newCartId : Option String) : SafeCartMutationResult :=
  { success := true
    cart := some cart
    errors := []
    wasRecovered := wasRecovered
    newCartId := newCartId }

/-- `buildFailureResult`: a failed mutation result (`wasRecovered` is always
`false` and no `newCartId` is set). -/
def buildFailureResult (errors : List CartMutationError)
    (cart : Option HydrogenCart) : SafeCartMutationResult :=
  { success := false
    cart := cart
    errors := errors
    wasRecovered := false
    newCartId := none }

/-- `extractUserErrors`: convert the remote `userErrors` array into
structured `CartMutationError`s of kind `USER_ERROR`, copying message and
field path verbatim. -/
def extractUserErrors (userErrors : Option (List CartUserError)) :
    List CartMutationError :=
  match userErrors with
  | none => []
  | some errs =>
    if errs.isEmpty then []
    else
      errs.map (fun err =>
        { code := CartMutationErrorCode.USER_ERROR
          message := err.message
          field := err.field.map (fun f => String.intercalate "." f)
          originalError := some err })

/-- `createStaleCartError`: the `STALE_CART` diagnostic referencing the cart id. -/
def createStaleCartError (cartId : String) : CartMutationError :=
  { code := CartMutationErrorCode.STALE_CART
    message := "Cart " ++ cartId ++ " is stale or expired. A new cart will be created."
    field := none
    originalError := none }

/-- `createNoOpError`: the `NO_OP_MUTATION` error. -/
def createNoOpError : CartMutationError :=
  { code := CartMutationErrorCode.NO_OP_MUTATION
    message := "Mutation was silently ignored by Shopify. This typically means the cart is stale."
    field := none
    originalError := none }

/-- `createContextMismatchError`: the `CONTEXT_MISMATCH` error describing the
expected and actual context. -/
def createContextMismatchError (expected : CartContext)
    (current : CurrentContext) : CartMutationError :=
  { code := CartMutationErrorCode.CONTEXT_MISMATCH
    message := "Cart was created for " ++ expected.countryCode ++ "/" ++
      expected.languageCode ++ " but current context is " ++
      current.countryCode ++ "/" ++ current.languageCode ++ ". Cart will be recreated."
    field := none
    originalError := none }

/-- `createRecoveryFailedError`: the `RECOVERY_FAILED` error wrapping a list
of original errors. -/
def createRecoveryFailedError (originalErrors : List CartMutationError) :
    CartMutationError :=
  { code := CartMutationErrorCode.RECOVERY_FAILED
    message := "Failed to recover cart after " ++ toString originalErrors.length ++
      " error(s): " ++ String.intercalate "; " (originalErrors.map (fun e => e.message))
    field := none
    originalError := none }

/-- `detectNoOpMutation`: decide whether a mutation was silently ignored by
comparing the before/after `{updatedAt, totalQuantity}` snapshots.  For
add/remove with a declared expected quantity change, an unchanged timestamp
together with a quantity mismatch returns `true`; otherwise the function
falls through to returning whether the timestamp is unchanged. -/
def detectNoOpMutation (previousCart currentCart : Option CartSnapshot)
    (mutationType : CartMutationType) (expectedQuantityChange : Option Int) :
    Bool :=
  match previousCart, currentCart with
  | none, _ => false
  | _, none => false
  | some prev, some curr =>
    let timestampUnchanged := prev.updatedAt == curr.updatedAt
    let addNoOp :=
      match mutationType, expectedQuantityChange with
      | CartMutationType.add, some expected =>
        let actualChange := curr.totalQuantity.getD 0 - prev.totalQuantity.getD 0
        timestampUnchanged && (actualChange != expected)
      | _, _ => false
    let removeNoOp :=
      match mutationType, expectedQuantityChange with
      | CartMutationType.remove, some expected =>
        let actualChange := prev.totalQuantity.getD 0 - curr.totalQuantity.getD 0
        timestampUnchanged && (actualChange != expected)
      | _, _ => false
    if addNoOp then true
    else if removeNoOp then true
    else timestampUnchanged

/-- Outcome of `JSON.parse` on a stored string: it either throws or yields a
value that the code treats as `CartContext | null`. -/
inductive ParseOutcome
  | pthrows
  | pvalue (v : Option CartContext)

/-- Environment for the persisted key-value record: the behaviour of
`JSON.parse` and `JSON.stringify` on the client. -/
structure JsonEnv where
  parse : String → ParseOutcome
  stringify : CartContext → String

/-- The browser storage slot holding the cart context record, together with
its failure modes (server-side rendering, and reads/writes/removes that
throw). -/
structure StorageCell where
  isServer : Bool
  readThrows : Bool
  writeThrows : Bool
  removeThrows : Bool
  item : Option String
deriving Repr

/-- A storage cell with no record and no failure modes. -/
def emptyCell : StorageCell :=
  { isServer := false, readThrows := false, writeThrows := false
    removeThrows := false, item := none }

/-- `getStoredCartContext`: read the persisted cart context; returns `null`
on the server, when the slot is empty or its raw value falsy, and when the
read or the JSON parse throws (all storage errors are swallowed). -/
def getStoredCartContext (env : JsonEnv) (cell : StorageCell) :
    Option CartContext :=
  if cell.isServer then none
  else if cell.readThrows then none
  else
    match cell.item with
    | none => none
    | some stored =>
      if stored = "" then none
      else
        match env.parse stored with
        | ParseOutcome.pthrows => none
        | ParseOutcome.pvalue v => v

/-- `setStoredCartContext`: persist the context; a throwing write is ignored. -/
def setStoredCartContext (env : JsonEnv) (cell : StorageCell)
    (context : CartContext) : StorageCell :=
  if cell.isServer then cell
  else if cell.writeThrows then cell
  else { cell with item := some (env.stringify context) }

/-- `clearStoredCartContext`: remove the record; a throwing remove is ignored. -/
def clearStoredCartContext (cell : StorageCell) : StorageCell :=
  if cell.isServer then cell
  else if cell.removeThrows then cell
  else { cell with item := none }

/-- `isContextMatch`: true iff no context is stored (first cart creation) or
the stored country and language codes equal the current ones. -/
def isContextMatch (env : JsonEnv) (cell : StorageCell)
    (currentCountry currentLanguage : String) : Bool :=
  match getStoredCartContext env cell with
  | none => true
  | some stored =>
    stored.countryCode == currentCountry && stored.languageCode == currentLanguage

/-- The observable cart view of the hook at a given moment: the fields `useCart()`
exposes that the mutation layer reads (`id`, `updatedAt`, `totalQuantity`,
`lines`, whether the status is `uninitialized`, and any inline `userErrors`
carried on the cart object). -/
structure HookCart where
  id : Option String
  updatedAt : Option String
  totalQuantity : Option Int
  lines : Option (List CartLine)
  uninitialized : Bool
  userErrors : List CartUserError
deriving DecidableEq, Repr

/-- `getCurrentCart`: the hook cart as a `HydrogenCart`, or `null` while
the cart status is `uninitialized`. -/
def getCurrentCart (hc : HookCart) : Option HydrogenCart :=
  if hc.uninitialized then none
  else some { id := hc.id, updatedAt := hc.updatedAt
              totalQuantity := hc.totalQuantity, lines := hc.lines }

/-- `checkForUserErrors`: the `userErrors` carried on the cart object
(`?? []`). -/
def checkForUserErrors (hc : HookCart) : List CartUserError :=
  hc.userErrors

/-- `capturePreOpState`: record updatedAt (defaulting to the empty string)
and totalQuantity (defaulting to 0) of the hook cart before a mutation. -/
def capturePreOpState (hc : HookCart) : CartSnapshot :=
  { updatedAt := some (hc.updatedAt.getD "")
    totalQuantity := some (hc.totalQuantity.getD 0) }

/-- The options the hook runs under: country/language for context
validation and the auto-recover flag. -/
structure SafeCartOptions where
  countryCode : String
  languageCode : String
  autoRecover : Bool

/-- A gateway interaction: cart creation, or dispatch of a mutation closure. -/
inductive GatewayCall
  | create
  | mutate
deriving DecidableEq, Repr

/-- Behaviour of the remote service during one recovery attempt: whether
cart creation throws, the cart view observed after creation completes, the
ISO timestamp taken when the new context is stored, whether the replayed
mutation throws, and the cart view observed after the replay completes. -/
structure RecoveryEnv where
  createThrows : Bool
  postCreate : HookCart
  nowIso : String
  replayThrows : Option String
  postReplay : HookCart

/-- Behaviour of the remote service during one orchestrated mutation:
whether the mutation closure throws (with the error message), the cart view
observed once the mutation completes, and the behaviour of a recovery
attempt should one be triggered. -/
structure MutationEnv where
  firstThrows : Option String
  postMutation : HookCart
  recovery : RecoveryEnv

/-- The mutable state owned by the orchestrator: the persisted context
slot, the single-flight flag (`mutationInProgressRef`), the recovering flag,
the visible error list (`lastErrors`), the pre-mutation snapshot ref, and
the current hook cart view. -/
structure OrchState where
  storage : StorageCell
  inProgress : Bool
  isRecovering : Bool
  lastErrors : List CartMutationError
  preOp : Option CartSnapshot
  hookCart : HookCart
deriving Repr

/-- `createFreshCart`: request cart creation, wait for it to complete, and
if the observed cart has a (truthy) id, persist the new context and return
the id; a thrown error is caught and yields `null`. -/
def createFreshCart (env : JsonEnv) (cfg : SafeCartOptions) (renv : RecoveryEnv)
    (st : OrchState) : Option String × OrchState × List GatewayCall :=
  if renv.createThrows then
    (none, st, [GatewayCall.create])
  else
    let st1 : OrchState := { st with hookCart := renv.postCreate }
    match getCurrentCart st1.hookCart with
    | some newCart =>
      match newCart.id with
      | some newId =>
        if newId = "" then (none, st1, [GatewayCall.create])
        else
          let context : CartContext :=
            { countryCode := cfg.countryCode, languageCode := cfg.languageCode
              createdAt := renv.nowIso }
          (some newId,
           { st1 with storage := setStoredCartContext env st1.storage context },
           [GatewayCall.create])
      | none => (none, st1, [GatewayCall.create])
    | none => (none, st1, [GatewayCall.create])

/-- `performRecovery`: clear the stored context, create a fresh cart, and
replay the original mutation against it; classify the replay by its inline
`userErrors` and by whether a cart is observable afterwards.  A thrown
replay propagates (`Except.error`); the recovering flag is reset in every
case (the `finally`). -/
def performRecovery (env : JsonEnv) (cfg : SafeCartOptions) (renv : RecoveryEnv)
    (originalErrors : List CartMutationError) (st : OrchState) :
    Except String SafeCartMutationResult × OrchState × List GatewayCall :=
  let st1 : OrchState := { st with isRecovering := true }
  let st2 : OrchState := { st1 with storage := clearStoredCartContext st1.storage }
  match createFreshCart env cfg renv st2 with
  | (none, st3, calls) =>
    let recoveryError := createRecoveryFailedError originalErrors
    (Except.ok (buildFailureResult [recoveryError] none),
     { st3 with isRecovering := false }, calls)
  | (some newCartId, st3, calls) =>
    let st4 : OrchState := { st3 with preOp := some (capturePreOpState st3.hookCart) }
    match renv.replayThrows with
    | some msg =>
      (Except.error msg, { st4 with isRecovering := false },
       calls ++ [GatewayCall.mutate])
    | none =>
      let st5 : OrchState := { st4 with hookCart := renv.postReplay }
      let calls := calls ++ [GatewayCall.mutate]
      let userErrors := checkForUserErrors st5.hookCart
      if 0 < userErrors.length then
        let errors := extractUserErrors (some userErrors)
        (Except.ok (buildFailureResult errors none),
         { st5 with isRecovering := false }, calls)
      else
        match getCurrentCart st5.hookCart with
        | some recoveredCart =>
          (Except.ok (buildSuccessResult recoveredCart true (some newCartId)),
           { st5 with isRecovering := false }, calls)
        | none =>
          let recoveryError := createRecoveryFailedError originalErrors
          (Except.ok (buildFailureResult [recoveryError] none),
           { st5 with isRecovering := false }, calls)

/-- The `catch` clause of `executeSafeMutation`: a thrown error becomes a
single `UNKNOWN_ERROR` failure and is recorded in `lastErrors`. -/
def catchRecovery
    (r : Except String SafeCartMutationResult × OrchState × List GatewayCall) :
    SafeCartMutationResult × OrchState × List GatewayCall :=
  match r with
  | (Except.ok res, st, calls) => (res, st, calls)
  | (Except.error msg, st, calls) =>
    let errors : List CartMutationError :=
      [{ code := CartMutationErrorCode.UNKNOWN_ERROR, message := msg
         field := none, originalError := none }]
    (buildFailureResult errors none, { st with lastErrors := errors }, calls)

/-- Prepend already-performed gateway calls onto the trace of a continuation. -/
def withCalls (pre : List GatewayCall)
    (r : SafeCartMutationResult × OrchState × List GatewayCall) :
    SafeCartMutationResult × OrchState × List GatewayCall :=
  (r.1, r.2.1, pre ++ r.2.2)

/-- The body of `executeSafeMutation` after the context check: capture the
pre-mutation snapshot, run the mutation, wait for completion, then classify
(explicit `userErrors` first, then silent no-op detection), delegating to
recovery when enabled. -/
def executeMainPath (env : JsonEnv) (cfg : SafeCartOptions) (menv : MutationEnv)
    (mutationType : CartMutationType) (expectedQuantityChange : Option Int)
    (st : OrchState) : SafeCartMutationResult × OrchState × List GatewayCall :=
  let st1 : OrchState := { st with preOp := some (capturePreOpState st.hookCart) }
  match menv.firstThrows with
  | some msg =>
    let errors : List CartMutationError :=
      [{ code := CartMutationErrorCode.UNKNOWN_ERROR, message := msg
         field := none, originalError := none }]
    (buildFailureResult errors none, { st1 with lastErrors := errors },
     [GatewayCall.mutate])
  | none =>
    let st2 : OrchState := { st1 with hookCart := menv.postMutation }
    let calls := [GatewayCall.mutate]
    let userErrors := checkForUserErrors st2.hookCart
    if 0 < userErrors.length then
      let errors := extractUserErrors (some userErrors)
      if cfg.autoRecover then
        withCalls calls (catchRecovery (performRecovery env cfg menv.recovery errors st2))
      else
        (buildFailureResult errors none, { st2 with lastErrors := errors }, calls)
    else
      let currentCart := getCurrentCart st2.hookCart
      let isNoOp := detectNoOpMutation st2.preOp (currentCart.map HydrogenCart.snapshot)
        mutationType expectedQuantityChange
      if isNoOp then
        let staleError := createStaleCartError (st2.hookCart.id.getD "unknown")
        let errors := [staleError, createNoOpError]
        if cfg.autoRecover then
          withCalls calls (catchRecovery (performRecovery env cfg menv.recovery errors st2))
        else
          (buildFailureResult errors none, { st2 with lastErrors := errors }, calls)
      else
        match currentCart with
        | some c => (buildSuccessResult c false none, st2, calls)
        | none =>
          (buildFailureResult
            [{ code := CartMutationErrorCode.UNKNOWN_ERROR
               message := "No cart state after mutation"
               field := none, originalError := none }] none, st2, calls)

/-- The `try` block of `executeSafeMutation`: the context check, delegating
to the recovery controller on a mismatch with a stored context (when
auto-recovery is enabled), and otherwise the main mutation path. -/
def executeSafeMutationBody (env : JsonEnv) (cfg : SafeCartOptions)
    (menv : MutationEnv) (mutationType : CartMutationType)
    (expectedQuantityChange : Option Int) (st : OrchState) :
    SafeCartMutationResult × OrchState × List GatewayCall :=
  if isContextMatch env st.storage cfg.countryCode cfg.languageCode = false then
    match getStoredCartContext env st.storage with
    | some storedContext =>
      let mismatchError := createContextMismatchError storedContext
        { countryCode := cfg.countryCode, languageCode := cfg.languageCode }
      if cfg.autoRecover then
        catchRecovery (performRecovery env cfg menv.recovery [mismatchError] st)
      else
        (buildFailureResult [mismatchError] none,
         { st with lastErrors := [mismatchError] }, [])
    | none => executeMainPath env cfg menv mutationType expectedQuantityChange st
  else
    executeMainPath env cfg menv mutationType expectedQuantityChange st

/-- The `finally` clause of `executeSafeMutation`: drop the single-flight
flag. -/
def finishExecute
    (r : SafeCartMutationResult × OrchState × List GatewayCall) :
    SafeCartMutationResult × OrchState × List GatewayCall :=
  (r.1, { r.2.1 with inProgress := false }, r.2.2)

/-- The single `UNKNOWN_ERROR` returned by the single-flight guard. -/
def busyError : CartMutationError :=
  { code := CartMutationErrorCode.UNKNOWN_ERROR
    message := "Another mutation is already in progress"
    field := none, originalError := none }

/-- `executeSafeMutation`: the orchestrator entry point.  Fails fast when
another mutation is in flight; otherwise raises the single-flight flag,
clears `lastErrors`, runs the guarded body, and always drops the flag. -/
def executeSafeMutation (env : JsonEnv) (cfg : SafeCartOptions)
    (menv : MutationEnv) (mutationType : CartMutationType)
    (expectedQuantityChange : Option Int) (st : OrchState) :
    SafeCartMutationResult × OrchState × List GatewayCall :=
  if st.inProgress then
    (buildFailureResult [busyError] none, st, [])
  else
    finishExecute (executeSafeMutationBody env cfg menv mutationType
      expectedQuantityChange { st with inProgress := true, lastErrors := [] })

/-- `safeAddLines`: an add mutation whose expected quantity change is the
sum of the requested quantities. -/
def safeAddLines (env : JsonEnv) (cfg : SafeCartOptions) (menv : MutationEnv)
    (lines : List CartLineAddInput) (st : OrchState) :
    SafeCartMutationResult × OrchState × List GatewayCall :=
  executeSafeMutation env cfg menv CartMutationType.add
    (some (lines.foldl (fun sum line => sum + line.quantity) 0)) st

/-- `safeUpdateLines`: an update mutation (no expected quantity change). -/
def safeUpdateLines (env : JsonEnv) (cfg : SafeCartOptions) (menv : MutationEnv)
    (lines : List CartLineUpdateInput) (st : OrchState) :
    SafeCartMutationResult × OrchState × List GatewayCall :=
  executeSafeMutation env cfg menv CartMutationType.update none st

/-- `safeRemoveLines`: a remove mutation whose expected quantity change is
the number of removed line ids. -/
def safeRemoveLines (env : JsonEnv) (cfg : SafeCartOptions) (menv : MutationEnv)
    (lineIds : List String) (st : OrchState) :
    SafeCartMutationResult × OrchState × List GatewayCall :=
  executeSafeMutation env cfg menv CartMutationType.remove
    (some (lineIds.length : Int)) st

/-- The `variant` argument of `addToCart`: either a raw merchandise id
string or a `VariantLike` object (the id under node, defaulting to the
empty string). -/
inductive VariantRef
  | str (s : String)
  | obj (node : Option (Option String))
deriving DecidableEq, Repr

/-- Resolve the merchandise reference of a `variant` argument. -/
def VariantRef.resolve : VariantRef → String
  | VariantRef.str s => s
  | VariantRef.obj node => (node.getD none).getD ""

/-- `findExistingLine`: the first cart line whose `merchandise.id` equals
the given reference, as `{id, quantity ?? 0}`. -/
def findExistingLine (lines : Option (List CartLine)) (merchandiseId : String) :
    Option (String × Int) :=
  match lines with
  | none => none
  | some ls =>
    match ls.find? (fun l => l.merchandiseId == some merchandiseId) with
    | some line => some (line.id, line.quantity.getD 0)
    | none => none

/-- The local `UNKNOWN_ERROR` failure returned by `addToCart` on invalid input. -/
def invalidAddError : CartMutationError :=
  { code := CartMutationErrorCode.UNKNOWN_ERROR
    message := "Invalid merchandise ID or quantity"
    field := none, originalError := none }

/-- The local `UNKNOWN_ERROR` failure returned on an empty line id. -/
def invalidLineIdError : CartMutationError :=
  { code := CartMutationErrorCode.UNKNOWN_ERROR
    message := "Invalid line ID"
    field := none, originalError := none }

/-- `addToCart`: resolve the merchandise reference, reject invalid input
locally, then either update the existing line with the summed quantity or
add a new line. -/
def addToCart (env : JsonEnv) (cfg : SafeCartOptions) (menv : MutationEnv)
    (variant : VariantRef) (quantity : Int) (st : OrchState) :
    SafeCartMutationResult × OrchState × List GatewayCall :=
  let merchandiseId := variant.resolve
  if merchandiseId = "" ∨ quantity ≤ 0 then
    ({ success := false, cart := none, errors := [invalidAddError]
       wasRecovered := false, newCartId := none }, st, [])
  else
    match findExistingLine st.hookCart.lines merchandiseId with
    | some existingLine =>
      let newQuantity := existingLine.2 + quantity
      safeUpdateLines env cfg menv [{ id := existingLine.1, quantity := newQuantity }] st
    | none =>
      safeAddLines env cfg menv [{ merchandiseId := merchandiseId, quantity := quantity }] st

/-- `updateQuantity`: route a non-positive new quantity to remove,
otherwise to update; reject an empty line id locally. -/
def updateQuantity (env : JsonEnv) (cfg : SafeCartOptions) (menv : MutationEnv)
    (lineId : String) (newQuantity : Int) (st : OrchState) :
    SafeCartMutationResult × OrchState × List GatewayCall :=
  if lineId = "" then
    ({ success := false, cart := none, errors := [invalidLineIdError]
       wasRecovered := false, newCartId := none }, st, [])
  else if newQuantity ≤ 0 then
    safeRemoveLines env cfg menv [lineId] st
  else
    safeUpdateLines env cfg menv [{ id := lineId, quantity := newQuantity }] st

/-- `removeFromCart`: remove one line; reject an empty line id locally. -/
def removeFromCart (env : JsonEnv) (cfg : SafeCartOptions) (menv : MutationEnv)
    (lineId : String) (st : OrchState) :
    SafeCartMutationResult × OrchState × List GatewayCall :=
  if lineId = "" then
    ({ success := false, cart := none, errors := [invalidLineIdError]
       wasRecovered := false, newCartId := none }, st, [])
  else
    safeRemoveLines env cfg menv [lineId] st

/-- An item passed to `addMultipleToCart`. -/
structure AddItem where
  merchandiseId : String
  quantity : Int
deriving DecidableEq, Repr

/-- Partition `addMultipleToCart` items against the current lines: items
with an existing line become updates with summed quantity, the rest become
new adds (iteration order preserved). -/
def partitionItems (lines : Option (List CartLine)) (items : List AddItem) :
    List CartLineAddInput × List CartLineUpdateInput :=
  items.foldl
    (fun acc item =>
      match findExistingLine lines item.merchandiseId with
      | some existingLine =>
        (acc.1, acc.2 ++ [{ id := existingLine.1
                            quantity := existingLine.2 + item.quantity }])
      | none =>
        (acc.1 ++ [{ merchandiseId := item.merchandiseId
                     quantity := item.quantity }], acc.2))
    ([], [])

/-- The add phase of `addMultipleToCart`: run the adds if any remain,
otherwise report success with the cart observed at entry. -/
def addMultiplePhase2 (env : JsonEnv) (cfg : SafeCartOptions)
    (menvAdd : MutationEnv) (newItems : List CartLineAddInput)
    (entryCart : Option HydrogenCart) (st : OrchState) (calls : List GatewayCall) :
    SafeCartMutationResult × OrchState × List GatewayCall :=
  if 0 < newItems.length then
    withCalls calls (safeAddLines env cfg menvAdd newItems st)
  else
    match entryCart with
    | some currentCart =>
      ({ success := true, cart := some currentCart, errors := []
         wasRecovered := false, newCartId := none }, st, calls)
    | none =>
      ({ success := true, cart := none, errors := []
         wasRecovered := false, newCartId := none }, st, calls)

/-- `addMultipleToCart`: partition into updates and adds, run the updates
first and return immediately if they fail, then run the adds; when every
item was an update, report success with the current cart. -/
def addMultipleToCart (env : JsonEnv) (cfg : SafeCartOptions)
    (menvUpdate menvAdd : MutationEnv) (items : List AddItem) (st : OrchState) :
    SafeCartMutationResult × OrchState × List GatewayCall :=
  if items.isEmpty then
    ({ success := false, cart := none
       errors := [{ code := CartMutationErrorCode.UNKNOWN_ERROR
                    message := "No items provided"
                    field := none, originalError := none }]
       wasRecovered := false, newCartId := none }, st, [])
  else
    let parts := partitionItems st.hookCart.lines items
    let newItems := parts.1
    let updateItems := parts.2
    let entryCart := getCurrentCart st.hookCart
    if 0 < updateItems.length then
      let updateRun := safeUpdateLines env cfg menvUpdate updateItems st
      if updateRun.1.success = false then updateRun
      else addMultiplePhase2 env cfg menvAdd newItems entryCart updateRun.2.1 updateRun.2.2
    else
      addMultiplePhase2 env cfg menvAdd newItems entryCart st []

/-! Concrete sample data used by witnesses and counterexamples. -/

/-- A JSON environment whose parse always yields `null` and whose
stringify is a fixed record. -/
def jsonEnv0 : JsonEnv :=
  { parse := fun _ => ParseOutcome.pvalue none
    stringify := fun _ => "stored-context" }

/-- A JSON environment whose parse always throws (corrupted record). -/
def jsonEnvBad : JsonEnv :=
  { parse := fun _ => ParseOutcome.pthrows
    stringify := fun _ => "stored-context" }

/-- A JSON environment that parses every record as the US/EN context. -/
def jsonEnvUS : JsonEnv :=
  { parse := fun _ => ParseOutcome.pvalue
      (some { countryCode := "US", languageCode := "EN"
              createdAt := "2024-01-01T00:00:00Z" })
    stringify := fun _ => "stored-context" }

/-- A storage cell holding an unparseable record. -/
def corruptCell : StorageCell :=
  { isServer := false, readThrows := false, writeThrows := false
    removeThrows := false, item := some "not-json" }

/-- A storage cell holding a (parseable) stored record. -/
def storedCell : StorageCell :=
  { isServer := false, readThrows := false, writeThrows := false
    removeThrows := false, item := some "stored-context" }

/-- The hook cart view at entry for the samples: an empty idle cart. -/
def hook0 : HookCart :=
  { id := some "gid-cart-1", updatedAt := some "2024-01-01T00:00:00Z"
    totalQuantity := some 0, lines := some [], uninitialized := false
    userErrors := [] }

/-- The hook cart after a successful add of quantity 2. -/
def hookAfterAdd : HookCart :=
  { id := some "gid-cart-1", updatedAt := some "2024-01-02T00:00:00Z"
    totalQuantity := some 2, lines := some [], uninitialized := false
    userErrors := [] }

/-- A freshly created cart as observed after the creation step of recovery. -/
def hookNew : HookCart :=
  { id := some "gid-new", updatedAt := some "2024-02-01T00:00:00Z"
    totalQuantity := some 0, lines := some [], uninitialized := false
    userErrors := [] }

/-- A sample inline user error reported by the remote service. -/
def ue0 : CartUserError :=
  { message := "Invalid merchandise", field := some ["lines", "merchandiseId"] }

/-- Initial orchestrator state for the samples: idle, no stored context. -/
def st0 : OrchState :=
  { storage := emptyCell, inProgress := false, isRecovering := false
    lastErrors := [], preOp := none, hookCart := hook0 }

/-- Sample options with auto-recovery enabled. -/
def cfg0 : SafeCartOptions :=
  { countryCode := "US", languageCode := "EN", autoRecover := true }

/-- Sample options with auto-recovery disabled. -/
def cfgNR : SafeCartOptions :=
  { countryCode := "US", languageCode := "EN", autoRecover := false }

/-- Recovery behaviour: creation succeeds, the replay reports a user error. -/
def renvReplayErr : RecoveryEnv :=
  { createThrows := false, postCreate := hookNew
    nowIso := "2024-02-01T00:00:01Z", replayThrows := none
    postReplay := { hookNew with userErrors := [ue0] } }

/-- Recovery behaviour: creation succeeds, the replay is a silent no-op
(the observed cart after the replay is identical to the new cart). -/
def renvNoOpReplay : RecoveryEnv :=
  { createThrows := false, postCreate := hookNew
    nowIso := "2024-02-01T00:00:01Z", replayThrows := none
    postReplay := hookNew }

/-- Mutation behaviour: the add completes and the cart advances by 2. -/
def menvAddOk : MutationEnv :=
  { firstThrows := none, postMutation := hookAfterAdd
    recovery := renvNoOpReplay }

/-- Mutation behaviour: the add is silently ignored (cart unchanged). -/
def menvSilent : MutationEnv :=
  { firstThrows := none, postMutation := hook0
    recovery := renvNoOpReplay }

/-- Mutation behaviour: the first call reports a user error; the recovery
replay reports one as well. -/
def menvUserErr : MutationEnv :=
  { firstThrows := none, postMutation := { hook0 with userErrors := [ue0] }
    recovery := renvReplayErr }

/-! Helper lemmas about result shapes. -/

/-- A result value as handed back to callers: success with an empty error
list, or failure with a non-empty error list, `wasRecovered = false` and no
`newCartId`. -/
def WellFormedResult (r : SafeCartMutationResult) : Prop :=
  (r.success = true ∧ r.errors = []) ∨
  (r.success = false ∧ r.errors ≠ [] ∧ r.wasRecovered = false ∧ r.newCartId = none)

lemma wellFormed_buildSuccess (c : HydrogenCart) (w : Bool) (n : Option String) :
    WellFormedResult (buildSuccessResult c w n) :=
  Or.inl ⟨rfl, rfl⟩

lemma wellFormed_buildFailure (errs : List CartMutationError)
    (c : Option HydrogenCart) (h : errs ≠ []) :
    WellFormedResult (buildFailureResult errs c) :=
  Or.inr ⟨rfl, h, rfl, rfl⟩

lemma extractUserErrors_ne_nil (ues : List CartUserError) (h : 0 < ues.length) :
    extractUserErrors (some ues) ≠ [] := by
  unfold extractUserErrors
  cases ues with
  | nil => simp at h
  | cons a l => simp

lemma wellFormed_performRecovery (env : JsonEnv) (cfg : SafeCartOptions)
    (renv : RecoveryEnv) (errs : List CartMutationError) (st : OrchState)
    (r : SafeCartMutationResult)
    (h : (performRecovery env cfg renv errs st).1 = Except.ok r) :
    WellFormedResult r := by
  unfold performRecovery at h
  dsimp only [] at h
  split at h
  · dsimp only [] at h
    cases h
    exact wellFormed_buildFailure _ _ (by simp)
  · split at h
    · dsimp only [] at h
      exact absurd h (by simp)
    · split at h
      · dsimp only [] at h
        cases h
        exact wellFormed_buildFailure _ _ (extractUserErrors_ne_nil _ (by assumption))
      · split at h
        · dsimp only [] at h
          cases h
          exact wellFormed_buildSuccess _ _ _
        · dsimp only [] at h
          cases h
          exact wellFormed_buildFailure _ _ (by simp)

lemma wellFormed_catchRecovery
    (x : Except String SafeCartMutationResult × OrchState × List GatewayCall)
    (hok : ∀ r, x.1 = Except.ok r → WellFormedResult r) :
    WellFormedResult (catchRecovery x).1 := by
  rcases x with ⟨e, st, calls⟩
  cases e with
  | ok r => exact hok r rfl
  | error msg => exact wellFormed_buildFailure _ _ (by simp)

lemma wellFormed_executeMainPath (env : JsonEnv) (cfg : SafeCartOptions)
    (menv : MutationEnv) (mt : CartMutationType) (e : Option Int)
    (st : OrchState) :
    WellFormedResult (executeMainPath env cfg menv mt e st).1 := by
  unfold executeMainPath
  dsimp only []
  split
  · exact wellFormed_buildFailure _ _ (by simp)
  · split
    · split
      · unfold withCalls
        dsimp only []
        exact wellFormed_catchRecovery _ (fun r h => wellFormed_performRecovery _ _ _ _ _ r h)
      · exact wellFormed_buildFailure _ _ (extractUserErrors_ne_nil _ (by assumption))
    · split
      · split
        · unfold withCalls
          dsimp only []
          exact wellFormed_catchRecovery _ (fun r h => wellFormed_performRecovery _ _ _ _ _ r h)
        · exact wellFormed_buildFailure _ _ (by simp)
      · split
        · exact wellFormed_buildSuccess _ _ _
        · exact wellFormed_buildFailure _ _ (by simp)

lemma wellFormed_executeSafeMutationBody (env : JsonEnv) (cfg : SafeCartOptions)
    (menv : MutationEnv) (mt : CartMutationType) (e : Option Int)
    (st : OrchState) :
    WellFormedResult (executeSafeMutationBody env cfg menv mt e st).1 := by
  unfold executeSafeMutationBody
  dsimp only []
  split
  · split
    · split
      · exact wellFormed_catchRecovery _ (fun r h => wellFormed_performRecovery _ _ _ _ _ r h)
      · exact wellFormed_buildFailure _ _ (by simp)
    · exact wellFormed_executeMainPath _ _ _ _ _ _
  · exact wellFormed_executeMainPath _ _ _ _ _ _

lemma wellFormed_executeSafeMutation (env : JsonEnv) (cfg : SafeCartOptions)
    (menv : MutationEnv) (mt : CartMutationType) (e : Option Int)
    (st : OrchState) :
    WellFormedResult (executeSafeMutation env cfg menv mt e st).1 := by
  unfold executeSafeMutation
  split
  · exact wellFormed_buildFailure _ _ (by simp)
  · unfold finishExecute
    dsimp only []
    exact wellFormed_executeSafeMutationBody _ _ _ _ _ _

lemma wellFormed_addToCart (env : JsonEnv) (cfg : SafeCartOptions)
    (menv : MutationEnv) (variant : VariantRef) (q : Int) (st : OrchState) :
    WellFormedResult (addToCart env cfg menv variant q st).1 := by
  unfold addToCart
  dsimp only []
  split
  · exact Or.inr ⟨rfl, by simp, rfl, rfl⟩
  · split
    · unfold safeUpdateLines
      exact wellFormed_executeSafeMutation _ _ _ _ _ _
    · unfold safeAddLines
      exact wellFormed_executeSafeMutation _ _ _ _ _ _

lemma wellFormed_updateQuantity (env : JsonEnv) (cfg : SafeCartOptions)
    (menv : MutationEnv) (lineId : String) (q : Int) (st : OrchState) :
    WellFormedResult (updateQuantity env cfg menv lineId q st).1 := by
  unfold updateQuantity
  split
  · exact Or.inr ⟨rfl, by simp, rfl, rfl⟩
  · split
    · unfold safeRemoveLines
      exact wellFormed_executeSafeMutation _ _ _ _ _ _
    · unfold safeUpdateLines
      exact wellFormed_executeSafeMutation _ _ _ _ _ _

lemma wellFormed_removeFromCart (env : JsonEnv) (cfg : SafeCartOptions)
    (menv : MutationEnv) (lineId : String) (st : OrchState) :
    WellFormedResult (removeFromCart env cfg menv lineId st).1 := by
  unfold removeFromCart
  split
  · exact Or.inr ⟨rfl, by simp, rfl, rfl⟩
  · unfold safeRemoveLines
    exact wellFormed_executeSafeMutation _ _ _ _ _ _

lemma wellFormed_addMultiplePhase2 (env : JsonEnv) (cfg : SafeCartOptions)
    (menvAdd : MutationEnv) (newItems : List CartLineAddInput)
    (entryCart : Option HydrogenCart) (st : OrchState) (calls : List GatewayCall) :
    WellFormedResult (addMultiplePhase2 env cfg menvAdd newItems entryCart st calls).1 := by
  unfold addMultiplePhase2
  split
  · unfold withCalls
    dsimp only []
    unfold safeAddLines
    exact wellFormed_executeSafeMutation _ _ _ _ _ _
  · split
    · exact Or.inl ⟨rfl, rfl⟩
    · exact Or.inl ⟨rfl, rfl⟩

lemma wellFormed_addMultipleToCart (env : JsonEnv) (cfg : SafeCartOptions)
    (menvUpdate menvAdd : MutationEnv) (items : List AddItem) (st : OrchState) :
    WellFormedResult (addMultipleToCart env cfg menvUpdate menvAdd items st).1 := by
  unfold addMultipleToCart
  dsimp only []
  split
  · exact Or.inr ⟨rfl, by simp, rfl, rfl⟩
  · split
    · split
      · unfold safeUpdateLines
        exact wellFormed_executeSafeMutation _ _ _ _ _ _
      · exact wellFormed_addMultiplePhase2 _ _ _ _ _ _ _
    · exact wellFormed_addMultiplePhase2 _ _ _ _ _ _ _

/-- The add/remove no-op verdict collapses to the timestamp check: the
quantity-mismatch branch only ever strengthens an already-unchanged
timestamp, and the final fall-through returns the timestamp check. -/
lemma detectNoOp_addRemove_timestamp (p cu : CartSnapshot) (e : Int)
    (mt : CartMutationType)
    (hmt : mt = CartMutationType.add ∨ mt = CartMutationType.remove) :
    detectNoOpMutation (some p) (some cu) mt (some e) =
      (p.updatedAt == cu.updatedAt) := by
  rcases hmt with h | h <;> subst h
  · unfold detectNoOpMutation
    dsimp only []
    cases hts : (p.updatedAt == cu.updatedAt) <;>
      cases hm : ((cu.totalQuantity.getD 0 - p.totalQuantity.getD 0) != e) <;>
        simp [hts, hm]
  · unfold detectNoOpMutation
    dsimp only []
    cases hts : (p.updatedAt == cu.updatedAt) <;>
      cases hm : ((p.totalQuantity.getD 0 - cu.totalQuantity.getD 0) != e) <;>
        simp [hts, hm]

/-! Claim theorems. -/

/-- C9: `detectNoOpMutation` returns `false` whenever either the before or
the after snapshot is absent, for every mutation type and every expected
quantity delta; a mutation issued before any cart state exists is never
classified as a silent no-op. -/
theorem C9_detect_absent_snapshot (prev curr : Option CartSnapshot)
    (mt : CartMutationType) (e : Option Int)
    (h : prev = none ∨ curr = none) :
    detectNoOpMutation prev curr mt e = false := by
  rcases h with h | h
  · subst h
    cases curr <;> rfl
  · subst h
    cases prev <;> rfl

/-- Witness for C9: the first-ever mutation has no before snapshot and is
not flagged as a no-op. -/
theorem C9_witness :
    ((none : Option CartSnapshot) = none ∨
      (some { updatedAt := some "T", totalQuantity := some 5 } :
        Option CartSnapshot) = none) ∧
    detectNoOpMutation none (some { updatedAt := some "T", totalQuantity := some 5 })
      CartMutationType.add (some 2) = false :=
  ⟨Or.inl rfl,
   C9_detect_absent_snapshot none
     (some { updatedAt := some "T", totalQuantity := some 5 })
     CartMutationType.add (some 2) (Or.inl rfl)⟩

/-- C3: while a mutation is in flight, a second orchestrated call fails
fast with a single `UNKNOWN_ERROR` ("Another mutation is already in
progress"), performs no gateway call, and leaves the whole state — cart
view, storage, and visible error list — untouched; a wrapper such as
`addToCart` on valid input behaves identically since it delegates to the
guarded orchestrator. -/
theorem C3_single_flight (env : JsonEnv) (cfg : SafeCartOptions)
    (menv : MutationEnv) (mt : CartMutationType) (e : Option Int)
    (st : OrchState) (h : st.inProgress = true) :
    executeSafeMutation env cfg menv mt e st =
      (buildFailureResult [busyError] none, st, []) ∧
    (∀ variant : VariantRef, ∀ q : Int, ¬(variant.resolve = "" ∨ q ≤ 0) →
      addToCart env cfg menv variant q st =
        (buildFailureResult [busyError] none, st, [])) := by
  constructor
  · unfold executeSafeMutation
    simp [h]
  · intro variant q hvq
    unfold addToCart
    dsimp only []
    rw [if_neg hvq]
    cases hfind : findExistingLine st.hookCart.lines variant.resolve with
    | some ex =>
      unfold safeUpdateLines executeSafeMutation
      simp [h]
    | none =>
      unfold safeAddLines executeSafeMutation
      simp [h]

/-- Witness for C3: with the in-flight flag raised, a concrete second call
returns the busy failure and changes nothing. -/
theorem C3_witness :
    ({ st0 with inProgress := true } : OrchState).inProgress = true ∧
    executeSafeMutation jsonEnv0 cfg0 menvAddOk CartMutationType.add (some 2)
        { st0 with inProgress := true } =
      (buildFailureResult [busyError] none, { st0 with inProgress := true }, []) :=
  ⟨rfl,
   (C3_single_flight jsonEnv0 cfg0 menvAddOk CartMutationType.add (some 2)
     { st0 with inProgress := true } rfl).1⟩

/-- C6: every result handed back to a caller has either `success = true`
with an empty error list or `success = false` with a non-empty error list,
across the orchestrator and every shared-authority wrapper. -/
theorem C6_result_exclusivity (env : JsonEnv) (cfg : SafeCartOptions)
    (menvA menvB : MutationEnv) (mt : CartMutationType) (e : Option Int)
    (st : OrchState) (variant : VariantRef) (q : Int) (lineId : String)
    (items : List AddItem) :
    (((executeSafeMutation env cfg menvA mt e st).1.success = true ∧
        (executeSafeMutation env cfg menvA mt e st).1.errors = []) ∨
      ((executeSafeMutation env cfg menvA mt e st).1.success = false ∧
        (executeSafeMutation env cfg menvA mt e st).1.errors ≠ [])) ∧
    (((addToCart env cfg menvA variant q st).1.success = true ∧
        (addToCart env cfg menvA variant q st).1.errors = []) ∨
      ((addToCart env cfg menvA variant q st).1.success = false ∧
        (addToCart env cfg menvA variant q st).1.errors ≠ [])) ∧
    (((updateQuantity env cfg menvA lineId q st).1.success = true ∧
        (updateQuantity env cfg menvA lineId q st).1.errors = []) ∨
      ((updateQuantity env cfg menvA lineId q st).1.success = false ∧
        (updateQuantity env cfg menvA lineId q st).1.errors ≠ [])) ∧
    (((removeFromCart env cfg menvA lineId st).1.success = true ∧
        (removeFromCart env cfg menvA lineId st).1.errors = []) ∨
      ((removeFromCart env cfg menvA lineId st).1.success = false ∧
        (removeFromCart env cfg menvA lineId st).1.errors ≠ [])) ∧
    (((addMultipleToCart env cfg menvA menvB items st).1.success = true ∧
        (addMultipleToCart env cfg menvA menvB items st).1.errors = []) ∨
      ((addMultipleToCart env cfg menvA menvB items st).1.success = false ∧
        (addMultipleToCart env cfg menvA menvB items st).1.errors ≠ [])) := by
  refine ⟨?_, ?_, ?_, ?_, ?_⟩
  · rcases wellFormed_executeSafeMutation env cfg menvA mt e st with h | ⟨h1, h2, _, _⟩
    · exact Or.inl h
    · exact Or.inr ⟨h1, h2⟩
  · rcases wellFormed_addToCart env cfg menvA variant q st with h | ⟨h1, h2, _, _⟩
    · exact Or.inl h
    · exact Or.inr ⟨h1, h2⟩
  · rcases wellFormed_updateQuantity env cfg menvA lineId q st with h | ⟨h1, h2, _, _⟩
    · exact Or.inl h
    · exact Or.inr ⟨h1, h2⟩
  · rcases wellFormed_removeFromCart env cfg menvA lineId st with h | ⟨h1, h2, _, _⟩
    · exact Or.inl h
    · exact Or.inr ⟨h1, h2⟩
  · rcases wellFormed_addMultipleToCart env cfg menvA menvB items st with h | ⟨h1, h2, _, _⟩
    · exact Or.inl h
    · exact Or.inr ⟨h1, h2⟩

/-- C8: every failure result carries `wasRecovered = false` and no
`newCartId` — both for the orchestrator as a whole and for any failure
produced inside recovery (in particular the replay-failed path, even
though a replacement cart was already created). -/
theorem C8_failure_shape (env : JsonEnv) (cfg : SafeCartOptions)
    (menv : MutationEnv) (mt : CartMutationType) (e : Option Int)
    (st stR : OrchState) (renv : RecoveryEnv)
    (errs : List CartMutationError) (r : SafeCartMutationResult) :
    ((executeSafeMutation env cfg menv mt e st).1.success = false →
      (executeSafeMutation env cfg menv mt e st).1.wasRecovered = false ∧
      (executeSafeMutation env cfg menv mt e st).1.newCartId = none) ∧
    ((performRecovery env cfg renv errs stR).1 = Except.ok r →
      r.success = false →
      r.wasRecovered = false ∧ r.newCartId = none) := by
  constructor
  · intro hf
    rcases wellFormed_executeSafeMutation env cfg menv mt e st with ⟨hs, _⟩ | ⟨_, _, hw, hn⟩
    · rw [hs] at hf
      cases hf
    · exact ⟨hw, hn⟩
  · intro hok hf
    rcases wellFormed_performRecovery env cfg renv errs stR r hok with ⟨hs, _⟩ | ⟨_, _, hw, hn⟩
    · rw [hs] at hf
      cases hf
    · exact ⟨hw, hn⟩

/-- Witness for C8: a concrete guarded failure, and a concrete
replay-failed recovery (the cart was recreated, yet the failure reports
`wasRecovered = false` and no new cart id). -/
theorem C8_witness :
    ((executeSafeMutation jsonEnv0 cfg0 menvAddOk CartMutationType.add (some 2)
        { st0 with inProgress := true }).1.success = false ∧
      (executeSafeMutation jsonEnv0 cfg0 menvAddOk CartMutationType.add (some 2)
        { st0 with inProgress := true }).1.wasRecovered = false ∧
      (executeSafeMutation jsonEnv0 cfg0 menvAddOk CartMutationType.add (some 2)
        { st0 with inProgress := true }).1.newCartId = none) ∧
    ((performRecovery jsonEnv0 cfg0 renvReplayErr [createNoOpError] st0).1 =
        Except.ok (buildFailureResult (extractUserErrors (some [ue0])) none) ∧
      (buildFailureResult (extractUserErrors (some [ue0])) none).wasRecovered = false ∧
      (buildFailureResult (extractUserErrors (some [ue0])) none).newCartId = none) := by
  constructor
  · refine ⟨rfl, ?_⟩
    exact (C8_failure_shape jsonEnv0 cfg0 menvAddOk CartMutationType.add (some 2)
      { st0 with inProgress := true } st0 renvReplayErr [createNoOpError]
      (buildFailureResult (extractUserErrors (some [ue0])) none)).1 rfl
  · refine ⟨rfl, ?_⟩
    exact (C8_failure_shape jsonEnv0 cfg0 menvAddOk CartMutationType.add (some 2)
      { st0 with inProgress := true } st0 renvReplayErr [createNoOpError]
      (buildFailureResult (extractUserErrors (some [ue0])) none)).2 rfl rfl

/-- C7: `addToCart` rejects a non-positive quantity or an empty resolved
merchandise reference locally (a single `UNKNOWN_ERROR`, no gateway call,
state untouched); otherwise it issues an update of the existing line with
the summed quantity when one matches the reference (no duplicate line), and
an add of a new line with the requested quantity when none does — the
update carrying no expected quantity delta and the add carrying the
requested quantity as its expected delta. -/
theorem C7_addToCart_dispatch (env : JsonEnv) (cfg : SafeCartOptions)
    (menv : MutationEnv) (variant : VariantRef) (q : Int) (st : OrchState) :
    (addToCart env cfg menv variant q st =
      if variant.resolve = "" ∨ q ≤ 0 then
        ({ success := false, cart := none, errors := [invalidAddError]
           wasRecovered := false, newCartId := none }, st, [])
      else
        match findExistingLine st.hookCart.lines variant.resolve with
        | some existingLine =>
          safeUpdateLines env cfg menv
            [{ id := existingLine.1, quantity := existingLine.2 + q }] st
        | none =>
          safeAddLines env cfg menv
            [{ merchandiseId := variant.resolve, quantity := q }] st) ∧
    (∀ updateLines : List CartLineUpdateInput,
      safeUpdateLines env cfg menv updateLines st =
        executeSafeMutation env cfg menv CartMutationType.update none st) ∧
    (safeAddLines env cfg menv [{ merchandiseId := variant.resolve, quantity := q }] st =
      executeSafeMutation env cfg menv CartMutationType.add (some q) st) := by
  refine ⟨?_, ?_, ?_⟩
  · unfold addToCart
    rfl
  · intro updateLines
    rfl
  · unfold safeAddLines
    simp

/-- C1 counterexample: an add mutation with both snapshots present, an
unchanged `updatedAt`, and an actual `totalQuantity` delta that exactly
matches the expected delta is still classified as a no-op, where the claim
predicts classification as success. -/
theorem C1_counterexample :
    detectNoOpMutation
      (some { updatedAt := some "2024-01-01T00:00:00Z", totalQuantity := some 0 })
      (some { updatedAt := some "2024-01-01T00:00:00Z", totalQuantity := some 2 })
      CartMutationType.add (some 2) = true := by
  rfl

/-- C1 (amended): for an add or remove mutation with a defined expected
quantity delta, when the remote call reports no inline errors and both the
before and after snapshots are available, the classifier yields
`NO_OP_MUTATION` plus a `STALE_CART` diagnostic referencing the cart id
exactly when `updatedAt` is unchanged — regardless of whether the actual
`totalQuantity` delta matches the expected delta — and classifies the
mutation as success when `updatedAt` changed. -/
theorem C1_noop_classification (env : JsonEnv) (cfg : SafeCartOptions)
    (menv : MutationEnv) (mt : CartMutationType) (eq0 : Int) (st : OrchState)
    (c : HydrogenCart)
    (hmt : mt = CartMutationType.add ∨ mt = CartMutationType.remove)
    (hprog : st.inProgress = false)
    (hctx : isContextMatch env st.storage cfg.countryCode cfg.languageCode = true)
    (hrec : cfg.autoRecover = false)
    (hthrow : menv.firstThrows = none)
    (hue : menv.postMutation.userErrors = [])
    (hcart : getCurrentCart menv.postMutation = some c) :
    ((some (st.hookCart.updatedAt.getD "") == c.updatedAt) = true →
      (executeSafeMutation env cfg menv mt (some eq0) st).1 =
        buildFailureResult
          [createStaleCartError (menv.postMutation.id.getD "unknown"),
           createNoOpError] none) ∧
    ((some (st.hookCart.updatedAt.getD "") == c.updatedAt) = false →
      (executeSafeMutation env cfg menv mt (some eq0) st).1 =
        buildSuccessResult c false none) := by
  have hkey : (executeSafeMutation env cfg menv mt (some eq0) st).1 =
      if (some (st.hookCart.updatedAt.getD "") == c.updatedAt) then
        buildFailureResult
          [createStaleCartError (menv.postMutation.id.getD "unknown"),
           createNoOpError] none
      else buildSuccessResult c false none := by
    unfold executeSafeMutation executeSafeMutationBody executeMainPath finishExecute
    dsimp only []
    rw [hprog, hctx, hthrow]
    dsimp only []
    cases hts : (some (st.hookCart.updatedAt.getD "") == c.updatedAt) <;>
      simp [checkForUserErrors, hue, hcart, hrec, capturePreOpState,
        HydrogenCart.snapshot, detectNoOp_addRemove_timestamp _ _ _ _ hmt, hts]
  constructor
  · intro hts
    rw [hkey, hts]
    rfl
  · intro hts
    rw [hkey, hts]
    rfl

/-- Witness for C1 at a concrete input: a changed timestamp classifies as
success. -/
theorem C1_witness :
    (CartMutationType.add = CartMutationType.add ∨
      CartMutationType.add = CartMutationType.remove) ∧
    st0.inProgress = false ∧
    isContextMatch jsonEnv0 st0.storage cfgNR.countryCode cfgNR.languageCode = true ∧
    cfgNR.autoRecover = false ∧
    menvAddOk.firstThrows = none ∧
    menvAddOk.postMutation.userErrors = [] ∧
    getCurrentCart menvAddOk.postMutation =
      some { id := some "gid-cart-1", updatedAt := some "2024-01-02T00:00:00Z"
             totalQuantity := some 2, lines := some [] } ∧
    (executeSafeMutation jsonEnv0 cfgNR menvAddOk CartMutationType.add (some 2) st0).1 =
      buildSuccessResult
        { id := some "gid-cart-1", updatedAt := some "2024-01-02T00:00:00Z"
          totalQuantity := some 2, lines := some [] } false none := by
  refine ⟨Or.inl rfl, rfl, rfl, rfl, rfl, rfl, rfl, ?_⟩
  exact (C1_noop_classification jsonEnv0 cfgNR menvAddOk CartMutationType.add 2 st0
    { id := some "gid-cart-1", updatedAt := some "2024-01-02T00:00:00Z"
      totalQuantity := some 2, lines := some [] }
    (Or.inl rfl) rfl rfl rfl rfl rfl rfl).2 rfl

/-- The structured errors extracted from the replay `userErrors` all carry
kind `USER_ERROR`. -/
lemma extractUserErrors_codes (ues : List CartUserError) :
    (extractUserErrors (some ues)).map (fun e => e.code) =
      ues.map (fun _ => CartMutationErrorCode.USER_ERROR) := by
  unfold extractUserErrors
  cases ues with
  | nil => simp
  | cons a l =>
    dsimp only []
    rw [if_neg (by simp)]
    rw [List.map_map]
    rfl

/-- C2 counterexample: a concrete recovery whose replay reports one user
error returns that error with kind `USER_ERROR`, not a `RECOVERY_FAILED`
wrapper as the claim states. -/
theorem C2_counterexample :
    (performRecovery jsonEnv0 cfg0 renvReplayErr [createNoOpError] st0).1 =
      Except.ok (buildFailureResult
        [{ code := CartMutationErrorCode.USER_ERROR
           message := "Invalid merchandise"
           field := some "lines.merchandiseId"
           originalError := some ue0 }] none) ∧
    CartMutationErrorCode.USER_ERROR ≠ CartMutationErrorCode.RECOVERY_FAILED := by
  exact ⟨rfl, by decide⟩

/-- C2 (amended): when the recovery cart creation succeeds but the replayed
mutation still reports inline errors, the result returned to the caller is
a failure whose errors are the errors of the replay converted verbatim with
kind `USER_ERROR` (they are not wrapped in `RECOVERY_FAILED`), and no
further recovery or retry is attempted: the gateway sees exactly one
creation and one replay. -/
theorem C2_replay_errors (env : JsonEnv) (cfg : SafeCartOptions)
    (renv : RecoveryEnv) (errs : List CartMutationError) (st : OrchState)
    (newId : String)
    (hct : renv.createThrows = false)
    (hinit : renv.postCreate.uninitialized = false)
    (hid : renv.postCreate.id = some newId)
    (hne : newId ≠ "")
    (hrt : renv.replayThrows = none)
    (hue : 0 < renv.postReplay.userErrors.length) :
    (performRecovery env cfg renv errs st).1 =
      Except.ok (buildFailureResult
        (extractUserErrors (some renv.postReplay.userErrors)) none) ∧
    (performRecovery env cfg renv errs st).2.2 =
      [GatewayCall.create, GatewayCall.mutate] ∧
    (extractUserErrors (some renv.postReplay.userErrors)).map (fun e => e.code) =
      renv.postReplay.userErrors.map (fun _ => CartMutationErrorCode.USER_ERROR) := by
  have hrun : performRecovery env cfg renv errs st =
      (Except.ok (buildFailureResult
         (extractUserErrors (some renv.postReplay.userErrors)) none),
       { storage := setStoredCartContext env
           (clearStoredCartContext st.storage)
           { countryCode := cfg.countryCode, languageCode := cfg.languageCode
             createdAt := renv.nowIso }
         inProgress := st.inProgress, isRecovering := false
         lastErrors := st.lastErrors
         preOp := some (capturePreOpState renv.postCreate)
         hookCart := renv.postReplay },
       [GatewayCall.create, GatewayCall.mutate]) := by
    unfold performRecovery createFreshCart
    dsimp only []
    rw [hct, hrt]
    dsimp only []
    simp [getCurrentCart, checkForUserErrors, hinit, hid, hne, hue]
  refine ⟨?_, ?_, extractUserErrors_codes _⟩
  · rw [hrun]
  · rw [hrun]

/-- Witness for C2 at a concrete input: create succeeds, the replay reports
one user error, and the trace is exactly one creation and one replay. -/
theorem C2_witness :
    renvReplayErr.createThrows = false ∧
    renvReplayErr.postCreate.uninitialized = false ∧
    renvReplayErr.postCreate.id = some "gid-new" ∧
    "gid-new" ≠ "" ∧
    renvReplayErr.replayThrows = none ∧
    0 < renvReplayErr.postReplay.userErrors.length ∧
    (performRecovery jsonEnv0 cfg0 renvReplayErr [createNoOpError] st0).2.2 =
      [GatewayCall.create, GatewayCall.mutate] := by
  refine ⟨rfl, rfl, rfl, by decide, rfl, by decide, ?_⟩
  exact (C2_replay_errors jsonEnv0 cfg0 renvReplayErr [createNoOpError] st0
    "gid-new" rfl rfl rfl (by decide) rfl (by decide)).2.1

/-- C4: the code diverges from the claim — a recovery whose replay leaves
the `updatedAt` and `totalQuantity` of the new cart unchanged (a silent no-op
against the new cart) and reports no inline errors is returned as a
success with `wasRecovered = true` and the new cart id, even though the
no-op detector used by the original classification path flags exactly this
situation; `performRecovery` captures the pre-replay snapshot but never
consults `detectNoOpMutation`. -/
theorem C4_replay_noop_divergence :
    (performRecovery jsonEnv0 cfg0 renvNoOpReplay [createNoOpError] st0).1 =
      Except.ok (buildSuccessResult
        { id := some "gid-new", updatedAt := some "2024-02-01T00:00:00Z"
          totalQuantity := some 0, lines := some [] } true (some "gid-new")) ∧
    detectNoOpMutation (some (capturePreOpState hookNew))
      (Option.map HydrogenCart.snapshot (getCurrentCart hookNew))
      CartMutationType.add (some 2) = true :=
  ⟨rfl, rfl⟩

/-- Cart creation performs exactly one gateway `create` call. -/
lemma createFreshCart_calls (env : JsonEnv) (cfg : SafeCartOptions)
    (renv : RecoveryEnv) (st : OrchState) :
    (createFreshCart env cfg renv st).2.2 = [GatewayCall.create] := by
  unfold createFreshCart
  dsimp only []
  split
  · rfl
  · split
    · split
      · split <;> rfl
      · rfl
    · rfl

/-- The first gateway interaction of every recovery is cart creation, never
the original mutation. -/
lemma performRecovery_calls_head (env : JsonEnv) (cfg : SafeCartOptions)
    (renv : RecoveryEnv) (errs : List CartMutationError) (st : OrchState) :
    (performRecovery env cfg renv errs st).2.2.head? = some GatewayCall.create := by
  unfold performRecovery
  dsimp only []
  split
  next st3 calls heq =>
    have hc : calls = [GatewayCall.create] := by
      have hcf := createFreshCart_calls env cfg renv
        { st with isRecovering := true, storage := clearStoredCartContext st.storage }
      rw [heq] at hcf
      exact hcf
    subst hc
    rfl
  next newId st3 calls heq =>
    have hc : calls = [GatewayCall.create] := by
      have hcf := createFreshCart_calls env cfg renv
        { st with isRecovering := true, storage := clearStoredCartContext st.storage }
      rw [heq] at hcf
      exact hcf
    subst hc
    split
    · rfl
    · split
      · rfl
      · split <;> rfl

/-- The catch wrapper preserves the gateway-call trace. -/
lemma catchRecovery_calls
    (x : Except String SafeCartMutationResult × OrchState × List GatewayCall) :
    (catchRecovery x).2.2 = x.2.2 := by
  rcases x with ⟨e, s, c⟩
  cases e <;> rfl

/-- C5: on a context mismatch with a stored context, the orchestrator with
auto-recovery enabled delegates directly to the recovery controller with
the `CONTEXT_MISMATCH` error and returns its result — its first gateway
interaction is cart creation, so the original mutation is not attempted
first — and with auto-recovery disabled it returns the mismatch failure
without any gateway call. -/
theorem C5_context_mismatch (env : JsonEnv) (cfg : SafeCartOptions)
    (menv : MutationEnv) (mt : CartMutationType) (e : Option Int)
    (st : OrchState) (ctx : CartContext)
    (hprog : st.inProgress = false)
    (hstored : getStoredCartContext env st.storage = some ctx)
    (hmatch : isContextMatch env st.storage cfg.countryCode cfg.languageCode = false) :
    (cfg.autoRecover = true →
      executeSafeMutation env cfg menv mt e st =
        finishExecute (catchRecovery (performRecovery env cfg menv.recovery
          [createContextMismatchError ctx
            { countryCode := cfg.countryCode, languageCode := cfg.languageCode }]
          { st with inProgress := true, lastErrors := [] })) ∧
      (executeSafeMutation env cfg menv mt e st).2.2.head? =
        some GatewayCall.create) ∧
    (cfg.autoRecover = false →
      executeSafeMutation env cfg menv mt e st =
        (buildFailureResult
          [createContextMismatchError ctx
            { countryCode := cfg.countryCode, languageCode := cfg.languageCode }] none,
         { st with inProgress := false
                   lastErrors := [createContextMismatchError ctx
                     { countryCode := cfg.countryCode, languageCode := cfg.languageCode }] },
         [])) := by
  constructor
  · intro hrec
    have h1 : executeSafeMutation env cfg menv mt e st =
        finishExecute (catchRecovery (performRecovery env cfg menv.recovery
          [createContextMismatchError ctx
            { countryCode := cfg.countryCode, languageCode := cfg.languageCode }]
          { st with inProgress := true, lastErrors := [] })) := by
      unfold executeSafeMutation executeSafeMutationBody
      dsimp only []
      simp [hprog, hstored, hmatch, hrec]
    refine ⟨h1, ?_⟩
    rw [h1]
    unfold finishExecute
    dsimp only []
    rw [catchRecovery_calls]
    exact performRecovery_calls_head env cfg menv.recovery _ _
  · intro hrec
    unfold executeSafeMutation executeSafeMutationBody
    dsimp only []
    simp [hprog, hstored, hmatch, hrec, finishExecute]

/-- Witness for C5: a stored US/EN context with a CA/FR current context
delegates to recovery, whose first gateway call is cart creation. -/
theorem C5_witness :
    st0.inProgress = false ∧
    getStoredCartContext jsonEnvUS storedCell =
      some { countryCode := "US", languageCode := "EN"
             createdAt := "2024-01-01T00:00:00Z" } ∧
    isContextMatch jsonEnvUS storedCell "CA" "FR" = false ∧
    (executeSafeMutation jsonEnvUS
      { countryCode := "CA", languageCode := "FR", autoRecover := true }
      menvAddOk CartMutationType.add (some 2)
      { st0 with storage := storedCell }).2.2.head? = some GatewayCall.create := by
  refine ⟨rfl, rfl, rfl, ?_⟩
  exact ((C5_context_mismatch jsonEnvUS
    { countryCode := "CA", languageCode := "FR", autoRecover := true }
    menvAddOk CartMutationType.add (some 2) { st0 with storage := storedCell }
    { countryCode := "US", languageCode := "EN", createdAt := "2024-01-01T00:00:00Z" }
    rfl rfl rfl).1 rfl).2

/-- C10: when the persisted context record is absent, inaccessible
(server-side or a throwing read), or its JSON parse throws, the stored
context reads as `null` without propagating any error, `isContextMatch`
returns `true` for every current context, and the orchestrator proceeds
directly to the mutation path exactly as if no cart context had ever been
stored. -/
theorem C10_storage_errors_swallowed (env : JsonEnv) (cell : StorageCell)
    (hbad : cell.isServer = true ∨ cell.readThrows = true ∨ cell.item = none ∨
      cell.item = some "" ∨
      (∃ s, cell.item = some s ∧ env.parse s = ParseOutcome.pthrows)) :
    getStoredCartContext env cell = none ∧
    (∀ cc ll, isContextMatch env cell cc ll = true) ∧
    (∀ (cfg : SafeCartOptions) (menv : MutationEnv) (mt : CartMutationType)
      (e : Option Int) (st : OrchState),
      st.storage = cell → st.inProgress = false →
      executeSafeMutation env cfg menv mt e st =
        finishExecute (executeMainPath env cfg menv mt e
          { st with inProgress := true, lastErrors := [] })) := by
  have hget : getStoredCartContext env cell = none := by
    unfold getStoredCartContext
    rcases hbad with h | h | h | h | ⟨s, hi, hp⟩
    · simp [h]
    · simp [h]
    · simp [h]
    · simp [h]
    · simp [hi, hp]
  refine ⟨hget, ?_, ?_⟩
  · intro cc ll
    unfold isContextMatch
    rw [hget]
  · intro cfg menv mt e st hst hprog
    have hm : isContextMatch env st.storage cfg.countryCode cfg.languageCode = true := by
      unfold isContextMatch
      rw [hst, hget]
    unfold executeSafeMutation executeSafeMutationBody
    dsimp only []
    simp [hprog, hm]

/-- Witness for C10: a record that is not parseable as JSON reads as
`null` and the context check passes. -/
theorem C10_witness :
    (∃ s, corruptCell.item = some s ∧ jsonEnvBad.parse s = ParseOutcome.pthrows) ∧
    getStoredCartContext jsonEnvBad corruptCell = none ∧
    isContextMatch jsonEnvBad corruptCell "US" "EN" = true := by
  refine ⟨⟨"not-json", rfl, rfl⟩, ?_, ?_⟩
  · exact (C10_storage_errors_swallowed jsonEnvBad corruptCell
      (Or.inr (Or.inr (Or.inr (Or.inr ⟨"not-json", rfl, rfl⟩))))).1
  · exact (C10_storage_errors_swallowed jsonEnvBad corruptCell
      (Or.inr (Or.inr (Or.inr (Or.inr ⟨"not-json", rfl, rfl⟩))))).2.1 "US" "EN"

end CartService
